import Mathlib

/-!
Shallow embedding of the Workflow Engine of UniversalBackendEngine
(`src/core/workflow.js`, class `WorkflowEngine`), for checking the
natural-language specification against the code.

Modelling conventions:
* JavaScript values that can appear in instance `data` / `history` / `result`
  are the inductive `JVal` (JSON primitives plus `Date` objects).
* JS `Map`s and SQL tables keyed by id are association lists with `alookup` /
  `aset`.
* The engine's observable state (`this.workflowInstances`, the
  `workflow_instances` table, and the events published through the event
  manager) is the structure `Engine`; `async` methods become pure functions
  from an `Engine` to a result carrying the successor `Engine`.  A JS `throw`
  becomes the `.err` constructor of `TResult`; because the JS code mutates the
  instance object in place, an error raised after a mutation still returns the
  mutated engine, exactly as the JS heap would show it.
* `new Date()` timestamps and `uuidv4()` are passed in as parameters
  (`now`, `newId`).
* Host callbacks (condition functions, `function` actions) and the code
  produced by the `Function` constructor for string conditions are parameters
  of the model (`HostEval`, `StrEval`); the model records only whether an
  action call succeeds or throws, and assumes host callbacks do not reach into
  the engine's own state.
* `eventManager.publishEvent` is modelled as appending an `EngineEvent`
  (event name and instance id; payload contents are elided) and never failing.
-/

/-- Association-list lookup, modelling `Map.get` and `SELECT ... WHERE id =`. -/
def alookup {α : Type} : List (String × α) → String → Option α
  | [], _ => none
  | (k', v) :: rest, k => if k' = k then some v else alookup rest k

/-- Association-list update/insert, modelling `Map.set` and SQL upsert. -/
def aset {α : Type} : List (String × α) → String → α → List (String × α)
  | [], k, v => [(k, v)]
  | (k', v') :: rest, k, v =>
      if k' = k then (k, v) :: rest else (k', v') :: aset rest k v

/-- JavaScript values stored in instance `data`, `history` and `result`:
JSON primitives plus `Date` objects (kept as millisecond timestamps). -/
inductive JVal : Type where
  | null : JVal
  | bool : Bool → JVal
  | num : Int → JVal
  | str : String → JVal
  | date : Nat → JVal
  | arr : List JVal → JVal
  | obj : List (String × JVal) → JVal

/-- Plain JS object used for `data` payloads. -/
abbrev ObjMap := List (String × JVal)

/-- Abstract rendering of `Date.prototype.toISOString` (the exact text is
immaterial to the development; what matters is that `JSON.stringify` turns a
`Date` into a string). -/
def dateToISO (t : Nat) : String := toString t

mutual
/-- Effect of `JSON.parse (JSON.stringify v)` on a value: `Date` objects
come back as ISO strings, everything else in `JVal` survives unchanged. -/
def jsonNorm : JVal → JVal
  | .null => .null
  | .bool b => .bool b
  | .num n => .num n
  | .str s => .str s
  | .date t => .str (dateToISO t)
  | .arr xs => .arr (jsonNormList xs)
  | .obj fs => .obj (jsonNormFields fs)

def jsonNormList : List JVal → List JVal
  | [] => []
  | v :: vs => jsonNorm v :: jsonNormList vs

def jsonNormFields : List (String × JVal) → List (String × JVal)
  | [] => []
  | (k, v) :: fs => (k, jsonNorm v) :: jsonNormFields fs
end

/-- JS object spread `{ ...a, ...b }`: keys of `a` in order (values overridden
by `b` where shared), then the keys of `b` not already in `a`. -/
def mergeObj (a b : ObjMap) : ObjMap :=
  a.map (fun kv => match alookup b kv.1 with
                   | some v => (kv.1, v)
                   | none => kv)
    ++ b.filter (fun kv => (alookup a kv.1).isNone)

/-- JS truthiness of a `JVal`. -/
def jvalTruthy : JVal → Bool
  | .null => false
  | .bool b => b
  | .num n => decide (n ≠ 0)
  | .str s => !s.isEmpty
  | .date _ => true
  | .arr _ => true
  | .obj _ => true

/-- One event published on the event manager (name plus `instanceId`;
other payload fields are elided). -/
structure EngineEvent where
  name : String
  instanceId : String
deriving DecidableEq, Repr

/-- The `action.type` discriminator of `executeActions`:
`event` publishes `action.event`; `http` is a no-op in the source
("Implementation omitted for brevity"); `callFn` is a `'function'` action
whose host callback either returns (`true`) or throws (`false`); any other
type is logged and skipped. -/
inductive ActionKind : Type where
  | event : String → ActionKind
  | http : ActionKind
  | callFn : Bool → ActionKind
  | unknown : ActionKind
deriving DecidableEq, Repr

/-- One declared action; `errorBehaviorContinue` is
`action.errorBehavior === 'continue'` (the default, `false`, aborts). -/
structure WfAction where
  kind : ActionKind
  errorBehaviorContinue : Bool := false
deriving DecidableEq, Repr

/-- Result of running a list of actions: the event list after the run, with
`err` marking that an action threw under the abort policy (events published
by earlier actions are kept, as they are in JS). -/
inductive ActResult : Type where
  | ok : List EngineEvent → ActResult
  | err : List EngineEvent → ActResult
deriving DecidableEq, Repr

/-- A running (or terminated) workflow instance, with the exact fields the JS
objects carry; optional fields that a fresh instance does not yet have
(`result`, `completedAt`, `cancelledAt`, `cancelReason`) are `Option`s. -/
structure WorkflowInstance where
  id : String
  workflowId : String
  entityId : String
  currentState : String
  data : ObjMap
  history : List JVal
  status : String
  result : Option JVal := none
  createdAt : Nat
  updatedAt : Nat
  completedAt : Option Nat := none
  cancelledAt : Option Nat := none
  cancelReason : Option String := none

/-- The `for (const action of actions)` loop of `WorkflowEngine.executeActions`:
each action either publishes an event, succeeds silently, or throws; a throw
is swallowed when `errorBehavior === 'continue'` and otherwise aborts the
loop, propagating to the caller. -/
def executeActions (inst : WorkflowInstance) (actions : List WfAction)
    (evs : List EngineEvent) : ActResult :=
  match actions with
  | [] => .ok evs
  | a :: rest =>
    match a.kind with
    | .event n => executeActions inst rest (evs ++ [⟨n, inst.id⟩])
    | .http => executeActions inst rest evs
    | .callFn true => executeActions inst rest evs
    | .callFn false =>
        if a.errorBehaviorContinue then executeActions inst rest evs
        else .err evs
    | .unknown => executeActions inst rest evs

/-- Hook position inside a state (`actionType` of `executeStateActions`). -/
inductive HookType : Type where
  | entry : HookType
  | exit : HookType
deriving DecidableEq, Repr

/-- One state of a workflow definition: its `actions.entry` and
`actions.exit` lists (absent lists are the empty list). -/
structure WfState where
  entryActions : List WfAction := []
  exitActions : List WfAction := []
deriving DecidableEq, Repr

/-- Selects `state.actions[actionType]`. -/
def hookActions (s : WfState) : HookType → List WfAction
  | .entry => s.entryActions
  | .exit => s.exitActions

/-- The guard `if (!state || !state.actions || !state.actions[actionType]) return;`
followed by `executeActions` (`WorkflowEngine.executeStateActions`). -/
def executeStateActions (inst : WorkflowInstance) (state? : Option WfState)
    (t : HookType) (evs : List EngineEvent) : ActResult :=
  match state? with
  | none => .ok evs
  | some s => executeActions inst (hookActions s t) evs

/-- Outcome of calling a host JavaScript function (or code produced by the
`Function` constructor): a boolean (JS truthiness of the returned value) or a
thrown error. -/
abbrev HostEval := Except Unit Bool

/-- Semantics of the code the `Function` constructor compiles from a condition
string, given the `{ data, input }` context.  This is host JavaScript built
from an author-supplied string, so it is a parameter of the model, not a
function the engine defines. -/
abbrev StrEval := String → ObjMap → ObjMap → HostEval

/-- A transition condition as the JS code accepts it: a host function, a
string (compiled with the `Function` constructor), or any other value. -/
inductive Condition : Type where
  | func : (ObjMap → ObjMap → HostEval) → Condition
  | str : String → Condition
  | other : JVal → Condition

/-- The body of `WorkflowEngine.evaluateCondition`: call a function condition
directly; compile-and-run a string condition via the `Function` constructor
(the oracle `se`); return `true` for anything else; any thrown error is caught
and becomes `false`. -/
def evaluateCondition (se : StrEval) (cond : Condition)
    (instanceData transitionData : ObjMap) : Bool :=
  match cond with
  | .func f =>
      match f instanceData transitionData with
      | .ok b => b
      | .error _ => false
  | .str s =>
      match se s instanceData transitionData with
      | .ok b => b
      | .error _ => false
  | .other _ => true

/-- JS truthiness of a condition value, for the
`transition.condition && ...` short-circuit. -/
def condTruthy : Condition → Bool
  | .func _ => true
  | .str s => !s.isEmpty
  | .other v => jvalTruthy v

/-- One transition of a definition (`from`/`to` are Lean-renamed to
`fromState`/`toState`). -/
structure Transition where
  name : String
  fromState : String
  toState : String
  condition : Option Condition := none
  actions : Option (List WfAction) := none

/-- The check `transition.condition && !this.evaluateCondition(...)` of
`executeTransition`: `true` when the transition must be rejected. -/
def condBlocked (se : StrEval) (tr : Transition) (instData inputData : ObjMap) :
    Bool :=
  match tr.condition with
  | some c => condTruthy c && !(evaluateCondition se c instData inputData)
  | none => false

/-- A workflow definition as `loadWorkflows` stores it in `this.workflows`
(after the snake-case/camel-case column fallback); `endStates` is optional
because the code checks `workflow.endStates &&` before using it. -/
structure Workflow where
  id : String
  name : String := ""
  states : List (String × WfState)
  transitions : List Transition
  startState : String
  endStates : Option (List String) := none

/-- A row of the `workflow_instances` table.  The `data`, `history` and
`result` columns hold JSON text; the model keeps the parsed form of that
text, so `saveWorkflowInstance` applies `jsonNorm` (the effect of
`JSON.stringify` then `JSON.parse`) when writing them.  `result`,
`completed_at`, `cancelled_at` and `cancel_reason` are not part of the
INSERT column list, hence `Option` with default `none`. -/
structure DbRecord where
  id : String
  workflow_id : String
  entity_id : String
  current_state : String
  data : JVal
  history : JVal
  status : String
  result : Option JVal := none
  created_at : Nat
  updated_at : Nat
  completed_at : Option Nat := none
  cancelled_at : Option Nat := none
  cancel_reason : Option String := none

/-- The observable engine state: `this.workflowInstances`, the stored
definitions `this.workflows`, the `workflow_instances` table, and the events
published so far. -/
structure Engine where
  workflows : List (String × Workflow)
  instances : List (String × WorkflowInstance)
  db : List (String × DbRecord)
  events : List EngineEvent

/-- The INSERT branch of `saveWorkflowInstance` (columns `id, workflow_id,
entity_id, current_state, data, history, status, created_at, updated_at`). -/
def toDbInsert (inst : WorkflowInstance) : DbRecord :=
  { id := inst.id
    workflow_id := inst.workflowId
    entity_id := inst.entityId
    current_state := inst.currentState
    data := jsonNorm (.obj inst.data)
    history := jsonNorm (.arr inst.history)
    status := inst.status
    created_at := inst.createdAt
    updated_at := inst.updatedAt }

/-- The UPDATE branch of `saveWorkflowInstance`: every column except
`created_at` is overwritten; `JSON.stringify(instance.result || null)` stores
JSON `null` when the instance has no `result`. -/
def dbUpdateRecord (old : DbRecord) (inst : WorkflowInstance) : DbRecord :=
  { old with
    workflow_id := inst.workflowId
    entity_id := inst.entityId
    current_state := inst.currentState
    data := jsonNorm (.obj inst.data)
    history := jsonNorm (.arr inst.history)
    status := inst.status
    result := some (match inst.result with
                    | none => .null
                    | some r => jsonNorm r)
    completed_at := inst.completedAt
    cancelled_at := inst.cancelledAt
    cancel_reason := inst.cancelReason
    updated_at := inst.updatedAt }

/-- `WorkflowEngine.saveWorkflowInstance`: upsert into `workflow_instances`
(UPDATE when a row with the instance's id exists, INSERT otherwise), then
refresh the in-memory cache. -/
def saveWorkflowInstance (E : Engine) (inst : WorkflowInstance) : Engine :=
  let stored := match alookup E.db inst.id with
                | some old => dbUpdateRecord old inst
                | none => toDbInsert inst
  { E with
    db := aset E.db inst.id stored
    instances := aset E.instances inst.id inst }

/-- Reads the fields of a parsed JSON object (engine-written `data` columns
always hold an object). -/
def objFieldsOf : JVal → ObjMap
  | .obj fs => fs
  | _ => []

/-- Reads the items of a parsed JSON array (engine-written `history` columns
always hold an array). -/
def arrItemsOf : JVal → List JVal
  | .arr xs => xs
  | _ => []

/-- `WorkflowEngine.mapDatabaseInstanceToObject`: column-by-column mapping of
a `workflow_instances` row back to an instance object; `data`, `history` and
`result` are `JSON.parse`d (the model's columns already hold parsed values). -/
def mapDatabaseInstanceToObject (r : DbRecord) : WorkflowInstance :=
  { id := r.id
    workflowId := r.workflow_id
    entityId := r.entity_id
    currentState := r.current_state
    data := objFieldsOf r.data
    history := arrItemsOf r.history
    status := r.status
    result := r.result
    createdAt := r.created_at
    updatedAt := r.updated_at
    completedAt := r.completed_at
    cancelledAt := r.cancelled_at
    cancelReason := r.cancel_reason }

/-- `WorkflowEngine.loadWorkflows`: every row fetched by
`SELECT * FROM workflows WHERE active = true` is stored into `this.workflows`
keyed by its id — there is no validation step. -/
def loadWorkflows (E : Engine) (rows : List Workflow) : Engine :=
  { E with workflows := rows.foldl (fun m w => aset m w.id w) E.workflows }

/-- The distinct `throw new Error(...)` sites of the engine's operations. -/
inductive WfError : Type where
  | workflowNotFound : WfError
  | instanceNotFound : WfError
  | invalidTransition : WfError
  | conditionNotMet : WfError
  | actionError : WfError
deriving DecidableEq, Repr

/-- Result of an engine operation: the successor engine plus the returned
instance, or a thrown error plus the engine as the JS heap leaves it (the JS
methods mutate instance objects in place, so state changed before a throw
stays changed). -/
inductive TResult : Type where
  | ok : Engine → WorkflowInstance → TResult
  | err : WfError → Engine → TResult

/-- Projects the error of a `TResult` (none when the call returned). -/
def tresultError : TResult → Option WfError
  | .ok _ _ => none
  | .err e _ => some e

/-- Projects the returned instance of a `TResult`. -/
def tresultInstance : TResult → Option WorkflowInstance
  | .ok _ i => some i
  | .err _ _ => none

/-- Projects the successor engine of a `TResult` (also in the error case: the
state the JS heap is left in). -/
def tresultEngine : TResult → Engine
  | .ok E _ => E
  | .err _ E => E

/-- One history entry, as the JS object literals build it: the initial entry
(no `transition` key) or a transition entry. -/
def mkHistoryEntry (state : String) (transitionName : Option String)
    (timestamp : Nat) (data : ObjMap) : JVal :=
  match transitionName with
  | none => .obj [("state", .str state), ("timestamp", .date timestamp),
                  ("data", .obj data)]
  | some t => .obj [("state", .str state), ("transition", .str t),
                    ("timestamp", .date timestamp), ("data", .obj data)]

/-- The fresh instance object `startWorkflow` builds before storing it:
`currentState = startState`, `status = 'active'`, one initial history
entry. -/
def freshInstance (now : Nat) (newId workflowId entityId startState : String)
    (initialData : ObjMap) : WorkflowInstance :=
  { id := newId
    workflowId := workflowId
    entityId := entityId
    currentState := startState
    data := initialData
    history := [mkHistoryEntry startState none now initialData]
    status := "active"
    createdAt := now
    updatedAt := now }

/-- `WorkflowEngine.startWorkflow`: look up the definition; build the instance
at `startState` with one initial history entry; store it in memory; save it to
the database; run the start state's entry actions; publish
`workflow:started`.  An entry-action failure propagates after the store and
the save. -/
def startWorkflow (E : Engine) (now : Nat) (newId workflowId entityId : String)
    (initialData : ObjMap) : TResult :=
  match alookup E.workflows workflowId with
  | none => .err .workflowNotFound E
  | some wf =>
    let inst := freshInstance now newId workflowId entityId wf.startState
      initialData
    let E1 := { E with instances := aset E.instances inst.id inst }
    let E2 := saveWorkflowInstance E1 inst
    match executeStateActions inst (alookup wf.states wf.startState) .entry
        E2.events with
    | .err evs => .err .actionError { E2 with events := evs }
    | .ok evs =>
        .ok { E2 with events := evs ++ [⟨"workflow:started", inst.id⟩] } inst

/-- `WorkflowEngine.completeWorkflow`: look up the instance (no status check),
set `status = 'completed'`, `result`, `completedAt`, `updatedAt`, save,
publish `workflow:completed`. -/
def completeWorkflow (E : Engine) (now : Nat) (instanceId : String)
    (result : JVal) : TResult :=
  match alookup E.instances instanceId with
  | none => .err .instanceNotFound E
  | some inst =>
    let inst2 := { inst with
                   status := "completed"
                   result := some result
                   completedAt := some now
                   updatedAt := now }
    let E1 := saveWorkflowInstance E inst2
    .ok { E1 with events := E1.events ++ [⟨"workflow:completed", inst2.id⟩] }
      inst2

/-- `WorkflowEngine.cancelWorkflow`: look up the instance (no status check),
set `status = 'cancelled'`, `cancelReason`, `cancelledAt`, `updatedAt`, save,
publish `workflow:cancelled`. -/
def cancelWorkflow (E : Engine) (now : Nat) (instanceId reason : String) :
    TResult :=
  match alookup E.instances instanceId with
  | none => .err .instanceNotFound E
  | some inst =>
    let inst2 := { inst with
                   status := "cancelled"
                   cancelReason := some reason
                   cancelledAt := some now
                   updatedAt := now }
    let E1 := saveWorkflowInstance E inst2
    .ok { E1 with events := E1.events ++ [⟨"workflow:cancelled", inst2.id⟩] }
      inst2

/-- The in-place mutation block of `executeTransition` (its "commit"): set
`currentState` to the target, shallow-merge the transition `data` into the
instance `data`, push one history entry, refresh `updatedAt`. -/
def commitInst (inst : WorkflowInstance) (tr : Transition)
    (transitionName : String) (now : Nat) (data : ObjMap) : WorkflowInstance :=
  { inst with
    currentState := tr.toState
    data := mergeObj inst.data data
    history := inst.history
               ++ [mkHistoryEntry tr.toState (some transitionName) now data]
    updatedAt := now }

/-- The `if (transition.actions) { await this.executeActions(...) }` step of
`executeTransition`. -/
def runTransitionActions (inst : WorkflowInstance) (tr : Transition)
    (evs : List EngineEvent) : ActResult :=
  match tr.actions with
  | some acts => executeActions inst acts evs
  | none => .ok evs

/-- `WorkflowEngine.executeTransition`: look up instance and definition (no
status check); find the transition by `(name, from == currentState)`; reject
when a truthy condition evaluates false; run current-state exit actions, then
transition actions; commit the in-memory mutation (`commitInst`); run the
target state's entry actions; save; publish `workflow:transitioned`; if the
target is in `endStates`, complete the workflow with the merged data.  Errors
thrown after the commit leave the mutated instance in memory. -/
def executeTransition (E : Engine) (se : StrEval) (now : Nat)
    (instanceId transitionName : String) (data : ObjMap) : TResult :=
  match alookup E.instances instanceId with
  | none => .err .instanceNotFound E
  | some inst =>
    match alookup E.workflows inst.workflowId with
    | none => .err .workflowNotFound E
    | some wf =>
      match wf.transitions.find?
          (fun t => t.name == transitionName
                    && t.fromState == inst.currentState) with
      | none => .err .invalidTransition E
      | some tr =>
        if condBlocked se tr inst.data data then .err .conditionNotMet E
        else
          match executeStateActions inst (alookup wf.states inst.currentState)
              .exit E.events with
          | .err evs => .err .actionError { E with events := evs }
          | .ok evs1 =>
            match runTransitionActions inst tr evs1 with
            | .err evs => .err .actionError { E with events := evs }
            | .ok evs2 =>
              let inst2 := commitInst inst tr transitionName now data
              let E2 := { E with
                          instances := aset E.instances inst2.id inst2
                          events := evs2 }
              match executeStateActions inst2
                  (alookup wf.states inst2.currentState) .entry E2.events with
              | .err evs => .err .actionError { E2 with events := evs }
              | .ok evs3 =>
                let E3 := saveWorkflowInstance { E2 with events := evs3 } inst2
                let E4 := { E3 with
                            events := E3.events
                                      ++ [⟨"workflow:transitioned", inst.id⟩] }
                match wf.endStates with
                | some es =>
                  if es.contains inst2.currentState then
                    completeWorkflow E4 now instanceId (.obj inst2.data)
                  else .ok E4 inst2
                | none => .ok E4 inst2

/-- State names of a definition, in declaration order. -/
def stateNames (w : Workflow) : List String := w.states.map (·.1)

/-- Modelled from the spec (§4.1): the validation `loadDefinitions` is said to
apply to each fetched definition — unique state names, every transition's
`from`/`to` referencing existing states, valid `startState` and `endStates`,
no duplicate `(name, from)` pairs.  The source's `loadWorkflows` contains no
such check; this definition exists to compare the spec's words with the
code. -/
def specValidDefinition (w : Workflow) : Bool :=
  decide (stateNames w).Nodup
  && w.transitions.all (fun t => (alookup w.states t.fromState).isSome
                                 && (alookup w.states t.toState).isSome)
  && (alookup w.states w.startState).isSome
  && (match w.endStates with
      | some es => es.all (fun s => (alookup w.states s).isSome)
      | none => true)
  && decide (w.transitions.map (fun t => (t.name, t.fromState))).Nodup

/-- A string-condition oracle that always returns `true` (one possible
behavior of host-compiled code). -/
def seTrue : StrEval := fun _ _ _ => .ok true

/-- An action with a host callback that throws, under the default (abort)
error behavior. -/
def failingAction : WfAction := { kind := .callFn false }

/-- Concrete fixture for C1: transition `go : A → B`. -/
def c1Tr : Transition := { name := "go", fromState := "A", toState := "B" }

/-- Concrete fixture for C1: state `B` has a failing entry action. -/
def c1Wf : Workflow :=
  { id := "wf1"
    states := [("A", {}), ("B", { entryActions := [failingAction] })]
    transitions := [c1Tr]
    startState := "A" }

/-- Concrete fixture for C1: an active instance at state `A`. -/
def c1Inst : WorkflowInstance :=
  { id := "i1"
    workflowId := "wf1"
    entityId := "e1"
    currentState := "A"
    data := []
    history := [mkHistoryEntry "A" none 1 []]
    status := "active"
    createdAt := 1
    updatedAt := 1 }

/-- Concrete fixture for C1: the engine holding `c1Inst`, already saved. -/
def c1Engine : Engine :=
  { workflows := [("wf1", c1Wf)]
    instances := [("i1", c1Inst)]
    db := [("i1", toDbInsert c1Inst)]
    events := [] }

/-- Concrete fixture for C3: a transition leaving the state the completed
instance rests in. -/
def c3Tr : Transition :=
  { name := "reopen", fromState := "done", toState := "open" }

/-- Concrete fixture for C3: the definition carrying `c3Tr`, with no
`endStates`. -/
def c3Wf : Workflow :=
  { id := "wf3"
    states := [("done", {}), ("open", {})]
    transitions := [c3Tr]
    startState := "open" }

/-- Concrete fixture for C3: an instance that has already completed. -/
def c3Inst : WorkflowInstance :=
  { id := "i3"
    workflowId := "wf3"
    entityId := "e3"
    currentState := "done"
    data := []
    history := [mkHistoryEntry "done" none 1 []]
    status := "completed"
    result := some (.obj [])
    createdAt := 1
    updatedAt := 7
    completedAt := some 7 }

/-- Concrete fixture for C3. -/
def c3Engine : Engine :=
  { workflows := [("wf3", c3Wf)]
    instances := [("i3", c3Inst)]
    db := [("i3", toDbInsert c3Inst)]
    events := [] }

/-- Concrete fixture for C4: the start state's entry actions fail. -/
def c4Wf : Workflow :=
  { id := "wf4"
    states := [("A", { entryActions := [failingAction] })]
    transitions := []
    startState := "A" }

/-- Concrete fixture for C4. -/
def c4Engine : Engine :=
  { workflows := [("wf4", c4Wf)], instances := [], db := [], events := [] }

/-- Concrete fixture for C5: a definition whose only transition targets the
nonexistent state `B` (it fails the spec's validation). -/
def c5BadWf : Workflow :=
  { id := "bad"
    states := [("A", {})]
    transitions := [{ name := "go", fromState := "A", toState := "B" }]
    startState := "A" }

/-- Concrete fixture for C5: an engine with nothing loaded. -/
def c5Engine : Engine :=
  { workflows := [], instances := [], db := [], events := [] }

/-- Concrete fixture for C6: transition `step : S → T`. -/
def c6Tr : Transition := { name := "step", fromState := "S", toState := "T" }

/-- Concrete fixture for C6: target state `T` has a failing entry action. -/
def c6Wf : Workflow :=
  { id := "wf6"
    states := [("S", {}), ("T", { entryActions := [failingAction] })]
    transitions := [c6Tr]
    startState := "S" }

/-- Concrete fixture for C6: an active instance at `S` with the initial
history entry. -/
def c6Inst : WorkflowInstance :=
  { id := "i6"
    workflowId := "wf6"
    entityId := "e6"
    currentState := "S"
    data := []
    history := [mkHistoryEntry "S" none 2 []]
    status := "active"
    createdAt := 2
    updatedAt := 2 }

/-- Concrete fixture for C6. -/
def c6Engine : Engine :=
  { workflows := [("wf6", c6Wf)]
    instances := [("i6", c6Inst)]
    db := [("i6", toDbInsert c6Inst)]
    events := [] }

/-- Concrete fixture for C7: a fresh instance whose history holds a `Date`
timestamp (as every engine-written history entry does). -/
def c7Inst : WorkflowInstance :=
  { id := "i7"
    workflowId := "wf7"
    entityId := "e7"
    currentState := "A"
    data := []
    history := [mkHistoryEntry "A" none 5 []]
    status := "active"
    createdAt := 5
    updatedAt := 5 }

/-- Concrete fixture for C7. -/
def c7Engine : Engine :=
  { workflows := [], instances := [("i7", c7Inst)], db := [], events := [] }

/-- Concrete fixture for C8: transition `finish : A → End`. -/
def c8Tr : Transition := { name := "finish", fromState := "A", toState := "End" }

/-- Concrete fixture for C8: `End` is an end state. -/
def c8Wf : Workflow :=
  { id := "wf8"
    states := [("A", {}), ("End", {})]
    transitions := [c8Tr]
    startState := "A"
    endStates := some ["End"] }

/-- Concrete fixture for C8: an active instance at `A`. -/
def c8Inst : WorkflowInstance :=
  { id := "i8"
    workflowId := "wf8"
    entityId := "e8"
    currentState := "A"
    data := [("a", .num 1)]
    history := [mkHistoryEntry "A" none 3 [("a", .num 1)]]
    status := "active"
    createdAt := 3
    updatedAt := 3 }

/-- Concrete fixture for C8. -/
def c8Engine : Engine :=
  { workflows := [("wf8", c8Wf)]
    instances := [("i8", c8Inst)]
    db := [("i8", toDbInsert c8Inst)]
    events := [] }

/-- Concrete fixture for C10: the condition function throws. -/
def c10Tr : Transition :=
  { name := "go"
    fromState := "A"
    toState := "B"
    condition := some (.func (fun _ _ => .error ())) }

/-- Concrete fixture for C10. -/
def c10Wf : Workflow :=
  { id := "wf10"
    states := [("A", {}), ("B", {})]
    transitions := [c10Tr]
    startState := "A" }

/-- Concrete fixture for C10: an active instance at `A`. -/
def c10Inst : WorkflowInstance :=
  { id := "i10"
    workflowId := "wf10"
    entityId := "e10"
    currentState := "A"
    data := []
    history := [mkHistoryEntry "A" none 4 []]
    status := "active"
    createdAt := 4
    updatedAt := 4 }

/-- Concrete fixture for C10. -/
def c10Engine : Engine :=
  { workflows := [("wf10", c10Wf)]
    instances := [("i10", c10Inst)]
    db := [("i10", toDbInsert c10Inst)]
    events := [] }

/-! Helper lemmas shared by the claim theorems. -/

theorem alookup_aset_self {α : Type} (m : List (String × α)) (k : String)
    (v : α) : alookup (aset m k v) k = some v := by
  induction m with
  | nil => simp [aset, alookup]
  | cons kv rest ih =>
      obtain ⟨k', v'⟩ := kv
      by_cases h : k' = k
      · simp [aset, alookup, h]
      · simp [aset, alookup, h, ih]

/-- C2 (counterexample): evaluating one and the same string guard against one
and the same `{instanceData, inputData}` yields different results under two
different behaviors of the host code the `Function` constructor compiles from
the author-supplied string.  Guard evaluation is therefore not a closed
evaluation of a restricted tagged-variant AST: it executes compiled
host-language code built from strings in the workflow definition. -/
theorem c2_counterexample_compiled_string :
    evaluateCondition (fun _ _ _ => .ok true) (.str "input.x > 1") [] [] = true
    ∧ evaluateCondition (fun _ _ _ => .ok false) (.str "input.x > 1") [] []
      = false :=
  ⟨rfl, rfl⟩

/-- C2 (amended): guard evaluation accepts a host function (called directly
on the two data objects), a string (compiled by the `Function` constructor
into host code whose result is returned), or any other value (evaluated as
`true`); a thrown error is caught and becomes `false`.  It is not a
restricted tagged-variant AST interpreter and author-supplied strings become
executable host code. -/
theorem c2_amended_evaluation_shape :
    (∀ (se : StrEval) (f : ObjMap → ObjMap → HostEval) (d i : ObjMap),
      evaluateCondition se (.func f) d i
        = match f d i with
          | .ok b => b
          | .error _ => false) ∧
    (∀ (se : StrEval) (s : String) (d i : ObjMap),
      evaluateCondition se (.str s) d i
        = match se s d i with
          | .ok b => b
          | .error _ => false) ∧
    (∀ (se : StrEval) (v : JVal) (d i : ObjMap),
      evaluateCondition se (.other v) d i = true) :=
  ⟨fun _ _ _ _ => rfl, fun _ _ _ _ => rfl, fun _ _ _ _ => rfl⟩

/-- C10: a thrown error during condition evaluation (host function or
compiled string) is caught and yields `false`; a condition that is neither a
function nor a string evaluates to `true` and never blocks a transition; and
when a function condition throws, `executeTransition` fails with the
condition-not-met error and the engine state is completely unchanged — the
evaluation error is not propagated. -/
theorem c10_condition_errors_block_transition :
    (∀ (se : StrEval) (f : ObjMap → ObjMap → HostEval) (d i : ObjMap),
      f d i = .error () → evaluateCondition se (.func f) d i = false) ∧
    (∀ (se : StrEval) (s : String) (d i : ObjMap),
      se s d i = .error () → evaluateCondition se (.str s) d i = false) ∧
    (∀ (se : StrEval) (v : JVal) (d i : ObjMap),
      evaluateCondition se (.other v) d i = true) ∧
    (∀ (se : StrEval) (tr : Transition) (v : JVal) (d i : ObjMap),
      tr.condition = some (.other v) → condBlocked se tr d i = false) ∧
    (∀ (E : Engine) (se : StrEval) (now : Nat) (iid tn : String) (d : ObjMap)
       (inst : WorkflowInstance) (wf : Workflow) (tr : Transition)
       (f : ObjMap → ObjMap → HostEval),
      alookup E.instances iid = some inst →
      alookup E.workflows inst.workflowId = some wf →
      wf.transitions.find?
          (fun t => t.name == tn && t.fromState == inst.currentState)
        = some tr →
      tr.condition = some (.func f) →
      f inst.data d = .error () →
      executeTransition E se now iid tn d = .err .conditionNotMet E) := by
  refine ⟨?_, ?_, ?_, ?_, ?_⟩
  · intro se f d i hf
    simp [evaluateCondition, hf]
  · intro se s d i hs
    simp [evaluateCondition, hs]
  · intro se v d i
    rfl
  · intro se tr v d i hc
    simp [condBlocked, hc, condTruthy, evaluateCondition]
  · intro E se now iid tn d inst wf tr f hinst hwf htr hc hf
    have hb : condBlocked se tr inst.data d = true := by
      simp [condBlocked, hc, condTruthy, evaluateCondition, hf]
    simp [executeTransition, hinst, hwf, htr, hb]

/-- C10 (witness): the error-throwing condition of `c10Engine` blocks the
transition with the condition-not-met error, leaving the engine unchanged. -/
theorem c10_condition_errors_block_transition_witness :
    evaluateCondition seTrue (.func (fun _ _ => .error ())) [] [] = false ∧
    executeTransition c10Engine seTrue 9 "i10" "go" []
      = .err .conditionNotMet c10Engine :=
  ⟨c10_condition_errors_block_transition.1 seTrue (fun _ _ => .error ()) [] []
      rfl,
   c10_condition_errors_block_transition.2.2.2.2 c10Engine seTrue 9 "i10"
      "go" [] c10Inst c10Wf c10Tr (fun _ _ => .error ()) rfl rfl rfl rfl rfl⟩

/-- C1 (counterexample): in `c1Engine` the transition `go : A → B` has a
failing abort-policy entry action on the target state `B`.  The call fails
and nothing is persisted (the database row still shows state `A`), but the
instance is NOT left unchanged at its pre-transition state: in memory,
`currentState` is already `B`, the history already carries the new entry, and
`updatedAt` has moved.  The commit happens before the target state's entry
actions, not only after all abort-policy hooks have succeeded. -/
theorem c1_counterexample_entry_failure_after_commit :
    tresultError (executeTransition c1Engine seTrue 5 "i1" "go" [])
      = some .actionError ∧
    (alookup c1Engine.instances "i1").map (·.currentState) = some "A" ∧
    ((alookup
        (tresultEngine (executeTransition c1Engine seTrue 5 "i1" "go" [])).instances
        "i1").map (·.currentState)) = some "B" ∧
    ((alookup
        (tresultEngine (executeTransition c1Engine seTrue 5 "i1" "go" [])).instances
        "i1").map (·.history.length)) = some 2 ∧
    ((alookup
        (tresultEngine (executeTransition c1Engine seTrue 5 "i1" "go" [])).instances
        "i1").map (·.updatedAt)) = some 5 ∧
    ((alookup
        (tresultEngine (executeTransition c1Engine seTrue 5 "i1" "go" [])).db
        "i1").map (·.current_state)) = some "A" := by
  decide

/-- C1 (amended): when an exit action or a transition action with abort
policy fails, `executeTransition` fails and both the in-memory instance map
and the database are unchanged (only the events of already-run actions were
published); but when a target-state entry action with abort policy fails, the
call still fails and nothing is persisted, while the in-memory instance has
already been committed (state updated, data merged, history appended,
`updatedAt` refreshed).  Persisting and the lifecycle event happen only after
the entry actions succeed. -/
theorem c1_amended_abort_policy
    (E : Engine) (se : StrEval) (now : Nat) (iid tn : String) (d : ObjMap)
    (inst : WorkflowInstance) (wf : Workflow) (tr : Transition)
    (hinst : alookup E.instances iid = some inst)
    (hwf : alookup E.workflows inst.workflowId = some wf)
    (htr : wf.transitions.find?
        (fun t => t.name == tn && t.fromState == inst.currentState) = some tr)
    (hcond : condBlocked se tr inst.data d = false) :
    (∀ evs,
      executeStateActions inst (alookup wf.states inst.currentState) .exit
          E.events = .err evs →
      executeTransition E se now iid tn d
        = .err .actionError { E with events := evs }) ∧
    (∀ evs1 evs,
      executeStateActions inst (alookup wf.states inst.currentState) .exit
          E.events = .ok evs1 →
      runTransitionActions inst tr evs1 = .err evs →
      executeTransition E se now iid tn d
        = .err .actionError { E with events := evs }) ∧
    (∀ evs1 evs2 evs,
      executeStateActions inst (alookup wf.states inst.currentState) .exit
          E.events = .ok evs1 →
      runTransitionActions inst tr evs1 = .ok evs2 →
      executeStateActions (commitInst inst tr tn now d)
          (alookup wf.states tr.toState) .entry evs2 = .err evs →
      executeTransition E se now iid tn d
        = .err .actionError
            { E with
              instances := aset E.instances inst.id (commitInst inst tr tn now d)
              events := evs }) := by
  refine ⟨?_, ?_, ?_⟩
  · intro evs hx
    simp [executeTransition, hinst, hwf, htr, hcond, hx]
  · intro evs1 evs hx ha
    simp [executeTransition, hinst, hwf, htr, hcond, hx, ha]
  · intro evs1 evs2 evs hx ha he
    have hcs : (commitInst inst tr tn now d).currentState = tr.toState := rfl
    have hid : (commitInst inst tr tn now d).id = inst.id := rfl
    simp [executeTransition, hinst, hwf, htr, hcond, hx, ha, hcs, hid, he]

/-- C1 (witness): the amended statement evaluated on `c1Engine`, whose target
state `B` has a failing entry action. -/
theorem c1_amended_abort_policy_witness :
    executeTransition c1Engine seTrue 5 "i1" "go" []
      = .err .actionError
          { c1Engine with
            instances := aset c1Engine.instances "i1"
                           (commitInst c1Inst c1Tr "go" 5 [])
            events := [] } :=
  (c1_amended_abort_policy c1Engine seTrue 5 "i1" "go" [] c1Inst c1Wf c1Tr
      rfl rfl rfl rfl).2.2 [] [] [] rfl rfl rfl

/-- C3 (counterexample): `c3Inst` has `status = "completed"`, yet
`cancelWorkflow` succeeds on it (no already-terminal failure) and overwrites
its status to `cancelled`, setting `cancelledAt` while `completedAt` is still
set — the instance is not left unchanged and terminal status is not
one-way. -/
theorem c3_counterexample_cancel_after_completed :
    c3Inst.status = "completed" ∧
    tresultError (cancelWorkflow c3Engine 9 "i3" "stop") = none ∧
    (tresultInstance (cancelWorkflow c3Engine 9 "i3" "stop")).map (·.status)
      = some "cancelled" ∧
    (tresultInstance (cancelWorkflow c3Engine 9 "i3" "stop")).map
        (·.cancelledAt) = some (some 9) ∧
    (tresultInstance (cancelWorkflow c3Engine 9 "i3" "stop")).map
        (·.completedAt) = some (some 7) ∧
    (tresultInstance (cancelWorkflow c3Engine 9 "i3" "stop")).map
        (·.updatedAt) = some 9 := by
  decide

/-- C3 (amended): neither `executeTransition` nor `cancelWorkflow` inspects
`status`.  `cancelWorkflow` succeeds on any stored instance — whatever its
status, including `completed` and `cancelled` — and overwrites the status to
`cancelled`; and `executeTransition` on a completed instance proceeds
normally whenever a matching transition from its `currentState` exists (shown
here for hooks that publish nothing and a definition without `endStates`).
There is no already-terminal error. -/
theorem c3_amended_no_terminal_check :
    (∀ (E : Engine) (now : Nat) (iid reason : String)
       (inst : WorkflowInstance),
      alookup E.instances iid = some inst →
      cancelWorkflow E now iid reason
        = .ok { saveWorkflowInstance E
                  { inst with status := "cancelled"
                              cancelReason := some reason
                              cancelledAt := some now
                              updatedAt := now } with
                events := (saveWorkflowInstance E
                  { inst with status := "cancelled"
                              cancelReason := some reason
                              cancelledAt := some now
                              updatedAt := now }).events
                  ++ [⟨"workflow:cancelled", inst.id⟩] }
            { inst with status := "cancelled"
                        cancelReason := some reason
                        cancelledAt := some now
                        updatedAt := now }) ∧
    (∀ (E : Engine) (se : StrEval) (now : Nat) (iid tn : String) (d : ObjMap)
       (inst : WorkflowInstance) (wf : Workflow) (tr : Transition),
      alookup E.instances iid = some inst →
      inst.status = "completed" →
      alookup E.workflows inst.workflowId = some wf →
      wf.transitions.find?
          (fun t => t.name == tn && t.fromState == inst.currentState)
        = some tr →
      condBlocked se tr inst.data d = false →
      executeStateActions inst (alookup wf.states inst.currentState) .exit
          E.events = .ok E.events →
      runTransitionActions inst tr E.events = .ok E.events →
      executeStateActions (commitInst inst tr tn now d)
          (alookup wf.states tr.toState) .entry E.events = .ok E.events →
      wf.endStates = none →
      tresultError (executeTransition E se now iid tn d) = none ∧
      tresultInstance (executeTransition E se now iid tn d)
        = some (commitInst inst tr tn now d)) := by
  refine ⟨?_, ?_⟩
  · intro E now iid reason inst hinst
    simp [cancelWorkflow, hinst]
  · intro E se now iid tn d inst wf tr hinst _hstatus hwf htr hcond hx ha he
      hend
    have hcs : (commitInst inst tr tn now d).currentState = tr.toState := rfl
    simp [executeTransition, hinst, hwf, htr, hcond, hx, ha, hcs, he, hend,
      tresultError, tresultInstance]

/-- C3 (witness): the amended statement on `c3Engine`: cancelling the
completed `c3Inst` succeeds and overwrites its status, and the `reopen`
transition executes on it. -/
theorem c3_amended_no_terminal_check_witness :
    tresultInstance (cancelWorkflow c3Engine 9 "i3" "stop")
      = some { c3Inst with status := "cancelled"
                           cancelReason := some "stop"
                           cancelledAt := some 9
                           updatedAt := 9 } ∧
    tresultError (executeTransition c3Engine seTrue 11 "i3" "reopen" [])
      = none :=
  ⟨by
      rw [c3_amended_no_terminal_check.1 c3Engine 9 "i3" "stop" c3Inst rfl]
      rfl,
   (c3_amended_no_terminal_check.2 c3Engine seTrue 11 "i3" "reopen" []
      c3Inst c3Wf c3Tr rfl rfl rfl rfl rfl rfl rfl rfl rfl).1⟩

/-- C4 (counterexample): in `c4Engine` the start state's entry action fails
under abort policy.  `startWorkflow` fails, but the newly created instance
HAS been persisted (its database row exists, at the start state) and stored
in the in-memory map before the entry actions ran. -/
theorem c4_counterexample_persist_before_entry :
    tresultError (startWorkflow c4Engine 3 "n1" "wf4" "e4" [])
      = some .actionError ∧
    ((alookup (tresultEngine (startWorkflow c4Engine 3 "n1" "wf4" "e4" [])).db
        "n1").map (·.current_state)) = some "A" ∧
    ((alookup
        (tresultEngine (startWorkflow c4Engine 3 "n1" "wf4" "e4" [])).instances
        "n1").map (·.currentState)) = some "A" := by
  decide

/-- C4 (amended): when the start state's entry actions fail under abort
policy, `startWorkflow` fails with the action's error, but only after the
fresh instance has been stored in the in-memory map and persisted to the
database; solely the `workflow:started` event is skipped. -/
theorem c4_amended_persisted_despite_entry_failure
    (E : Engine) (now : Nat) (newId wfId eId : String) (initData : ObjMap)
    (wf : Workflow) (evs : List EngineEvent)
    (hwf : alookup E.workflows wfId = some wf)
    (hfail : executeStateActions
        (freshInstance now newId wfId eId wf.startState initData)
        (alookup wf.states wf.startState) .entry E.events = .err evs) :
    startWorkflow E now newId wfId eId initData
      = .err .actionError
          { saveWorkflowInstance
              { E with
                instances := aset E.instances newId
                               (freshInstance now newId wfId eId wf.startState
                                 initData) }
              (freshInstance now newId wfId eId wf.startState initData) with
            events := evs } ∧
    (alookup (tresultEngine (startWorkflow E now newId wfId eId initData)).db
        newId).isSome = true ∧
    alookup
        (tresultEngine (startWorkflow E now newId wfId eId initData)).instances
        newId
      = some (freshInstance now newId wfId eId wf.startState initData) := by
  have h1 : startWorkflow E now newId wfId eId initData
      = .err .actionError
          { saveWorkflowInstance
              { E with
                instances := aset E.instances newId
                               (freshInstance now newId wfId eId wf.startState
                                 initData) }
              (freshInstance now newId wfId eId wf.startState initData) with
            events := evs } := by
    have hfid : (freshInstance now newId wfId eId wf.startState initData).id
        = newId := rfl
    simp [startWorkflow, hwf, hfid, saveWorkflowInstance, hfail]
  refine ⟨h1, ?_, ?_⟩
  · rw [h1]
    simp [tresultEngine, saveWorkflowInstance, freshInstance,
      alookup_aset_self]
  · rw [h1]
    simp [tresultEngine, saveWorkflowInstance, freshInstance,
      alookup_aset_self]

/-- C4 (witness): the amended statement on `c4Engine`: the failed start still
persisted the instance. -/
theorem c4_amended_persisted_despite_entry_failure_witness :
    (alookup (tresultEngine (startWorkflow c4Engine 3 "n1" "wf4" "e4" [])).db
        "n1").isSome = true :=
  (c4_amended_persisted_despite_entry_failure c4Engine 3 "n1" "wf4" "e4" []
      c4Wf [] rfl rfl).2.1

/-- C5 (counterexample): `c5BadWf` fails the validation the spec prescribes
(its transition targets the nonexistent state `B`), yet `loadWorkflows`
registers it without error. -/
theorem c5_counterexample_invalid_definition_registered :
    specValidDefinition c5BadWf = false ∧
    alookup (loadWorkflows c5Engine [c5BadWf]).workflows "bad" = some c5BadWf
    := by
  constructor
  · decide
  · rfl

/-- C5 (amended): `loadWorkflows` performs no validation at all: every
fetched definition is registered unconditionally (shown here for the last
fetched row, which always ends up registered under its id — valid or not);
there is no rejection path. -/
theorem c5_amended_no_validation (E : Engine) (rows : List Workflow)
    (w : Workflow) :
    alookup (loadWorkflows E (rows ++ [w])).workflows w.id = some w := by
  simp [loadWorkflows, List.foldl_append, alookup_aset_self]

/-- C6 (counterexample): the `step : S → T` call on `c6Engine` fails (the
target state's entry action throws under abort policy), so the count of
successfully committed transitions is zero — yet the instance's history has
grown from 1 to 2 entries. -/
theorem c6_counterexample_history_grows_on_failed_call :
    tresultError (executeTransition c6Engine seTrue 5 "i6" "step" [])
      = some .actionError ∧
    (alookup c6Engine.instances "i6").map (·.history.length) = some 1 ∧
    ((alookup
        (tresultEngine (executeTransition c6Engine seTrue 5 "i6" "step" [])).instances
        "i6").map (·.history.length)) = some 2 := by
  decide

/-- C6 (amended): `startWorkflow` creates the history with exactly the one
initial entry; `completeWorkflow` and `cancelWorkflow` never touch history;
and every `executeTransition` call leaves the stored instance's history equal
to the old history with at most one appended entry — exactly one when the
call returns successfully, but also one on calls that reached the commit
point and then failed in the target state's entry actions.  Entries are never
removed or reordered (the old history is always a prefix). -/
theorem c6_amended_history_discipline :
    (∀ (E : Engine) (now : Nat) (newId wfId eId : String) (d : ObjMap)
       (E' : Engine) (i : WorkflowInstance),
      startWorkflow E now newId wfId eId d = .ok E' i →
      i.history.length = 1) ∧
    (∀ (E : Engine) (now : Nat) (iid : String) (r : JVal)
       (inst : WorkflowInstance),
      alookup E.instances iid = some inst →
      (tresultInstance (completeWorkflow E now iid r)).map (·.history)
        = some inst.history) ∧
    (∀ (E : Engine) (now : Nat) (iid reason : String)
       (inst : WorkflowInstance),
      alookup E.instances iid = some inst →
      (tresultInstance (cancelWorkflow E now iid reason)).map (·.history)
        = some inst.history) ∧
    (∀ (E : Engine) (se : StrEval) (now : Nat) (iid tn : String) (d : ObjMap)
       (inst : WorkflowInstance),
      alookup E.instances iid = some inst →
      inst.id = iid →
      ∃ s : List JVal,
        ((alookup
            (tresultEngine (executeTransition E se now iid tn d)).instances
            iid).map (·.history)) = some (inst.history ++ s) ∧
        s.length ≤ 1 ∧
        (tresultError (executeTransition E se now iid tn d) = none →
          s.length = 1)) := by
  refine ⟨?_, ?_, ?_, ?_⟩
  · intro E now newId wfId eId d E' i h
    simp only [startWorkflow] at h
    split at h
    · exact absurd h (by simp)
    · split at h
      · exact absurd h (by simp)
      · injection h with h1 h2
        subst h2
        rfl
  · intro E now iid r inst hinst
    simp [completeWorkflow, hinst, tresultInstance]
  · intro E now iid reason inst hinst
    simp [cancelWorkflow, hinst, tresultInstance]
  · intro E se now iid tn d inst hinst hid
    subst hid
    simp only [executeTransition, hinst]
    cases hwf : alookup E.workflows inst.workflowId with
    | none =>
        exact ⟨[], by simp [tresultEngine, hinst], by simp, by
          simp [tresultError]⟩
    | some wf =>
        cases htr : List.find?
            (fun t => t.name == tn && t.fromState == inst.currentState)
            wf.transitions with
        | none =>
            exact ⟨[], by simp [htr, tresultEngine, hinst], by simp, by
              simp [htr, tresultError]⟩
        | some tr =>
          have hcid : (commitInst inst tr tn now d).id = inst.id := rfl
          have hch : (commitInst inst tr tn now d).history
              = inst.history ++ [mkHistoryEntry tr.toState (some tn) now d] :=
            rfl
          by_cases hc : condBlocked se tr inst.data d = true
          · exact ⟨[], by simp [htr, hc, tresultEngine, hinst], by simp, by
              simp [htr, hc, tresultError]⟩
          · cases hx : executeStateActions inst
                (alookup wf.states inst.currentState) HookType.exit
                E.events with
            | err evs =>
                exact ⟨[], by simp [htr, hc, hx, tresultEngine, hinst],
                  by simp, by simp [htr, hc, hx, tresultError]⟩
            | ok evs1 =>
              cases ha : runTransitionActions inst tr evs1 with
              | err evs =>
                  exact ⟨[], by simp [htr, hc, hx, ha, tresultEngine, hinst],
                    by simp, by simp [htr, hc, hx, ha, tresultError]⟩
              | ok evs2 =>
                cases he : executeStateActions (commitInst inst tr tn now d)
                    (alookup wf.states (commitInst inst tr tn now d).currentState)
                    HookType.entry evs2 with
                | err evs =>
                    refine ⟨[mkHistoryEntry tr.toState (some tn) now d],
                      ?_, ?_, ?_⟩
                    · simp [htr, hc, hx, ha, he, tresultEngine, hcid,
                        alookup_aset_self, hch]
                    · simp
                    · simp [htr, hc, hx, ha, he, tresultError]
                | ok evs3 =>
                  cases hes : wf.endStates with
                  | none =>
                      refine ⟨[mkHistoryEntry tr.toState (some tn) now d],
                        ?_, ?_, ?_⟩
                      · simp [htr, hc, hx, ha, he, hes, tresultEngine,
                          saveWorkflowInstance, hcid, alookup_aset_self, hch]
                      · simp
                      · simp [htr, hc, hx, ha, he, hes, tresultError]
                  | some es =>
                    by_cases hin :
                        (commitInst inst tr tn now d).currentState ∈ es
                    · refine ⟨[mkHistoryEntry tr.toState (some tn) now d],
                        ?_, ?_, ?_⟩
                      · simp [htr, hc, hx, ha, he, hes, hin, completeWorkflow,
                          saveWorkflowInstance, tresultEngine, hcid,
                          alookup_aset_self, hch]
                      · simp
                      · simp [htr, hc, hx, ha, he, hes, hin, completeWorkflow,
                          saveWorkflowInstance, tresultError, hcid,
                          alookup_aset_self]
                    · refine ⟨[mkHistoryEntry tr.toState (some tn) now d],
                        ?_, ?_, ?_⟩
                      · simp [htr, hc, hx, ha, he, hes, hin, tresultEngine,
                          saveWorkflowInstance, hcid, alookup_aset_self, hch]
                      · simp
                      · simp [htr, hc, hx, ha, he, hes, hin, tresultError]

/-- C6 (witness): the amended history discipline evaluated on `c6Engine`
(completing does not touch history; the failing `step` call appends at most
one entry). -/
theorem c6_amended_history_discipline_witness :
    (tresultInstance (completeWorkflow c6Engine 9 "i6" (.obj []))).map
        (·.history) = some c6Inst.history ∧
    ∃ s : List JVal,
      ((alookup
          (tresultEngine (executeTransition c6Engine seTrue 5 "i6" "step" [])).instances
          "i6").map (·.history)) = some (c6Inst.history ++ s) ∧
      s.length ≤ 1 ∧
      (tresultError (executeTransition c6Engine seTrue 5 "i6" "step" [])
          = none →
        s.length = 1) :=
  ⟨c6_amended_history_discipline.2.1 c6Engine 9 "i6" (.obj []) c6Inst rfl,
   c6_amended_history_discipline.2.2.2 c6Engine seTrue 5 "i6" "step" []
     c6Inst rfl rfl⟩

/-- C7 (counterexample): saving `c7Inst` and mapping its database row back
does not reproduce the instance: the `Date` inside its single history entry
comes back as a string (`JSON.parse` does not revive dates), so the
round-trip is not field-for-field identical. -/
theorem c7_counterexample_roundtrip_loses_dates :
    ((alookup (saveWorkflowInstance c7Engine c7Inst).db "i7").map
        (fun r => (mapDatabaseInstanceToObject r).history))
      = some [.obj [("state", .str "A"), ("timestamp", .str (dateToISO 5)),
          ("data", .obj [])]] ∧
    c7Inst.history
      = [.obj [("state", .str "A"), ("timestamp", .date 5),
          ("data", .obj [])]] ∧
    (alookup (saveWorkflowInstance c7Engine c7Inst).db "i7").map
        mapDatabaseInstanceToObject ≠ some c7Inst := by
  refine ⟨rfl, rfl, ?_⟩
  intro h
  have h1 := congrArg (Option.map (fun wi => wi.history)) h
  simp only [Option.map_map] at h1
  rw [show ((fun wi => wi.history) ∘ mapDatabaseInstanceToObject)
      = fun r => (mapDatabaseInstanceToObject r).history from rfl] at h1
  simp [saveWorkflowInstance, c7Engine, c7Inst, toDbInsert, alookup, aset,
    mapDatabaseInstanceToObject, jsonNorm, jsonNormList, jsonNormFields,
    mkHistoryEntry, dateToISO, arrItemsOf] at h1

/-- C7 (amended): the save/load round trip for an instance with an existing
database row (the UPDATE path) preserves every scalar field — `id`,
`workflowId`, `entityId`, `currentState`, `status`, `createdAt`, `updatedAt`,
`completedAt`, `cancelledAt`, `cancelReason` — while `data`, `history` and
`result` come back only up to JSON serialization: `Date` values inside them
become strings and an absent `result` loads as JSON `null`. -/
theorem c7_amended_roundtrip_upto_json
    (E : Engine) (inst : WorkflowInstance) (old : DbRecord)
    (hdb : alookup E.db inst.id = some old)
    (hoid : old.id = inst.id)
    (hca : old.created_at = inst.createdAt) :
    alookup (saveWorkflowInstance E inst).db inst.id
      = some (dbUpdateRecord old inst) ∧
    mapDatabaseInstanceToObject (dbUpdateRecord old inst)
      = { inst with
          data := jsonNormFields inst.data
          history := jsonNormList inst.history
          result := some (match inst.result with
                          | none => .null
                          | some r => jsonNorm r) } := by
  constructor
  · simp [saveWorkflowInstance, hdb, alookup_aset_self]
  · cases inst
    cases old
    simp_all [mapDatabaseInstanceToObject, dbUpdateRecord, objFieldsOf,
      arrItemsOf, jsonNorm]

/-- C7 (witness): the amended round trip evaluated on `c7Inst` after its
insert. -/
theorem c7_amended_roundtrip_upto_json_witness :
    mapDatabaseInstanceToObject (dbUpdateRecord (toDbInsert c7Inst) c7Inst)
      = { c7Inst with
          data := jsonNormFields c7Inst.data
          history := jsonNormList c7Inst.history
          result := some .null } :=
  (c7_amended_roundtrip_upto_json (saveWorkflowInstance c7Engine c7Inst)
      c7Inst (toDbInsert c7Inst) rfl rfl rfl).2

/-- C8: when a committed transition's target state is listed in the
definition's `endStates` and all hooks succeed, `executeTransition` succeeds
and has automatically completed the workflow: the returned instance has
`status = "completed"`, `completedAt = now`, `currentState` at the target,
and `result` equal to the post-merge data. -/
theorem c8_end_state_autocompletes
    (E : Engine) (se : StrEval) (now : Nat) (iid tn : String) (d : ObjMap)
    (inst : WorkflowInstance) (wf : Workflow) (tr : Transition)
    (es : List String) (evs1 evs2 evs3 : List EngineEvent)
    (hinst : alookup E.instances iid = some inst)
    (hid : inst.id = iid)
    (hwf : alookup E.workflows inst.workflowId = some wf)
    (htr : wf.transitions.find?
        (fun t => t.name == tn && t.fromState == inst.currentState) = some tr)
    (hcond : condBlocked se tr inst.data d = false)
    (hx : executeStateActions inst (alookup wf.states inst.currentState)
        .exit E.events = .ok evs1)
    (ha : runTransitionActions inst tr evs1 = .ok evs2)
    (he : executeStateActions (commitInst inst tr tn now d)
        (alookup wf.states tr.toState) .entry evs2 = .ok evs3)
    (hes : wf.endStates = some es)
    (hin : tr.toState ∈ es) :
    tresultError (executeTransition E se now iid tn d) = none ∧
    (tresultInstance (executeTransition E se now iid tn d)).map (·.status)
      = some "completed" ∧
    (tresultInstance (executeTransition E se now iid tn d)).map
        (·.completedAt) = some (some now) ∧
    (tresultInstance (executeTransition E se now iid tn d)).map (·.result)
      = some (some (.obj (mergeObj inst.data d))) ∧
    (tresultInstance (executeTransition E se now iid tn d)).map
        (·.currentState) = some tr.toState := by
  subst hid
  have hcs : (commitInst inst tr tn now d).currentState = tr.toState := rfl
  have hcid : (commitInst inst tr tn now d).id = inst.id := rfl
  have hcd : (commitInst inst tr tn now d).data = mergeObj inst.data d := rfl
  refine ⟨?_, ?_, ?_, ?_, ?_⟩ <;>
    simp [executeTransition, hinst, hwf, htr, hcond, hx, ha, hcs, hcid, hcd,
      he, hes, hin, completeWorkflow, saveWorkflowInstance,
      alookup_aset_self, tresultError, tresultInstance]

/-- C8 (witness): the `finish` transition of `c8Engine` lands in the end
state `End` and automatically completes the instance. -/
theorem c8_end_state_autocompletes_witness :
    tresultError (executeTransition c8Engine seTrue 7 "i8" "finish" [])
      = none ∧
    (tresultInstance (executeTransition c8Engine seTrue 7 "i8" "finish" [])).map
        (·.status) = some "completed" :=
  ⟨(c8_end_state_autocompletes c8Engine seTrue 7 "i8" "finish" [] c8Inst
      c8Wf c8Tr ["End"] [] [] [] rfl rfl rfl rfl rfl rfl rfl rfl rfl
      (by decide)).1,
   (c8_end_state_autocompletes c8Engine seTrue 7 "i8" "finish" [] c8Inst
      c8Wf c8Tr ["End"] [] [] [] rfl rfl rfl rfl rfl rfl rfl rfl rfl
      (by decide)).2.1⟩
